import Mathlib

/-!
Verification of the Odoo subscription reporter backend.

The development shallowly embeds the Python modules `odoo_reporter_local.py`,
`excel_exporter.py` and `app.py`.  Python values flowing through the pipeline
(JSON scalars, relation tuples, records) are modelled by the inductive type
`Val`; Python exceptions are modelled by `Except PyErr`; the remote JSON-RPC
backend is modelled by an oracle `Backend` mapping each request to an HTTP
outcome.  Numeric amounts are modelled with `Int` (no claim computes with
them; they are passed through unchanged).
-/

/-- Python exception classes that the embedded code can raise. -/
inductive PyErr where
  | typeError
  | valueError
  | attributeError
  | indexError
  | keyError
  deriving Repr, DecidableEq

/-- A Python/JSON value: `None`, booleans, integers, strings, lists and
string-keyed dicts (dicts are association lists in insertion order). -/
inductive Val where
  | none : Val
  | bool : Bool → Val
  | int : Int → Val
  | str : String → Val
  | list : List Val → Val
  | dict : List (String × Val) → Val
  deriving Repr

mutual

/-- Structural equality on values (Python `==` restricted to the shapes the
pipeline compares). -/
def Val.beq : Val → Val → Bool
  | .none, .none => true
  | .bool a, .bool b => a == b
  | .int a, .int b => a == b
  | .str a, .str b => a == b
  | .list a, .list b => Val.beqList a b
  | .dict a, .dict b => Val.beqDict a b
  | _, _ => false

/-- Elementwise equality of value lists. -/
def Val.beqList : List Val → List Val → Bool
  | [], [] => true
  | a :: as_, b :: bs => Val.beq a b && Val.beqList as_ bs
  | _, _ => false

/-- Elementwise equality of dict entry lists. -/
def Val.beqDict : List (String × Val) → List (String × Val) → Bool
  | [], [] => true
  | (ka, va) :: as_, (kb, vb) :: bs => ka == kb && Val.beq va vb && Val.beqDict as_ bs
  | _, _ => false

end

/-- Python truthiness of a value. -/
def Val.truthy : Val → Bool
  | .none => false
  | .bool b => b
  | .int n => n != 0
  | .str s => s != ""
  | .list xs => !xs.isEmpty
  | .dict d => !d.isEmpty

/-- Whether a value is a Python `list` (`isinstance(v, list)`). -/
def Val.isList : Val → Bool
  | .list _ => true
  | _ => false

/-- Python `str()` of a value; container reprs are abbreviated (the report
pipeline only ever stringifies relation labels, which are scalars). -/
def pyStr : Val → String
  | .none => "None"
  | .bool true => "True"
  | .bool false => "False"
  | .int n => toString n
  | .str s => s
  | .list _ => "[...]"
  | .dict _ => "{...}"

/-- Lookup in a dict body: Python `dict.get(k, default)`. -/
def pyGet (d : List (String × Val)) (k : String) (default : Val) : Val :=
  match d.find? (fun kv => kv.1 == k) with
  | some kv => kv.2
  | Option.none => default

/-- Python `v.get(k, default)`: succeeds on dicts, raises `AttributeError`
on any other receiver. -/
def pyGetAttr (v : Val) (k : String) (default : Val) : Except PyErr Val :=
  match v with
  | .dict d => .ok (pyGet d k default)
  | _ => .error .attributeError

/-- Python `v[i]` for a natural index: list/str indexing, `KeyError` on a
(string-keyed) dict, `TypeError` on non-subscriptable values. -/
def pyIndex (v : Val) (i : Nat) : Except PyErr Val :=
  match v with
  | .list xs =>
    match xs.get? i with
    | some x => .ok x
    | Option.none => .error .indexError
  | .str s =>
    match s.toList.get? i with
    | some c => .ok (.str (String.mk [c]))
    | Option.none => .error .indexError
  | .dict _ => .error .keyError
  | _ => .error .typeError

/-- Python iteration `for x in v`: lists yield elements, strings yield
one-character strings, dicts yield their keys; other values raise. -/
def pyIter : Val → Except PyErr (List Val)
  | .list xs => .ok xs
  | .str s => .ok (s.toList.map (fun c => Val.str (String.mk [c])))
  | .dict d => .ok (d.map (fun kv => Val.str kv.1))
  | _ => .error .typeError

/-- Python `len(v)`: defined for lists, strings and dicts, raises otherwise. -/
def pyLen : Val → Except PyErr Nat
  | .list xs => .ok xs.length
  | .str s => .ok s.length
  | .dict d => .ok d.length
  | _ => .error .typeError

/-- Replace the binding of `k` (first occurrence) or append it, preserving
insertion order — Python `d[k] = x` on a dict body. -/
def setKey : List (String × Val) → String → Val → List (String × Val)
  | [], k, x => [(k, x)]
  | (k', v') :: rest, k, x =>
    if k' == k then (k, x) :: rest else (k', v') :: setKey rest k x

/-- Python item assignment `v[k] = x`: mutates dicts, raises `TypeError`
on every other receiver. -/
def pySetItem (v : Val) (k : String) (x : Val) : Except PyErr Val :=
  match v with
  | .dict d => .ok (.dict (setKey d k x))
  | _ => .error .typeError

/-- Whether the character list `n` occurs contiguously inside `h`. -/
def listInfix (n : List Char) : List Char → Bool
  | [] => n.isEmpty
  | c :: t => n.isPrefixOf (c :: t) || listInfix n t

/-- Python `needle in container` for a string needle: key membership for
dicts, element membership for lists, substring for strings, `TypeError`
otherwise. -/
def pyContains (needle : String) (container : Val) : Except PyErr Bool :=
  match container with
  | .dict d => .ok (d.any (fun kv => kv.1 == needle))
  | .list xs => .ok (xs.any (fun x => Val.beq x (.str needle)))
  | .str s => .ok (listInfix needle.toList s.toList)
  | _ => .error .typeError

/-- Read a field of a normalized report for stating theorems ( `Option.none`
when the receiver is not a dict or the key is absent). -/
def getKey : Val → String → Option Val
  | .dict d, k => (d.find? (fun kv => kv.1 == k)).map Prod.snd
  | _, _ => Option.none

/-- Read a nested field path of a normalized report. -/
def getPath : Val → List String → Option Val
  | v, [] => some v
  | v, k :: ks =>
    match getKey v k with
    | some w => getPath w ks
    | Option.none => Option.none

/-- The key list of a dict value. -/
def dictKeys : Val → Option (List String)
  | .dict d => some (d.map Prod.fst)
  | _ => Option.none

/-! ## Field normalizers (`odoo_reporter_local.py`, lines 108–167) -/

/-- Python `str.capitalize()`: first character uppercased, the rest
lowercased. -/
def pyCapitalize (s : String) : String :=
  match s.toList with
  | [] => ""
  | c :: rest => String.mk (c.toUpper :: rest.map Char.toLower)

/-- Python `v.capitalize()` on a value: defined on strings, raises
`AttributeError` otherwise (Odoo status fields can be `false`). -/
def pyCapitalizeV : Val → Except PyErr String
  | .str s => .ok (pyCapitalize s)
  | _ => .error .attributeError

/-- The `status_mapping` dict of `map_status`. -/
def statusTable (s : String) : Option String :=
  if s == "4_close" then some "Closed"
  else if s == "6_churn" then some "Churned"
  else if s == "3_pending" then some "Pending"
  else if s == "2_open" then some "Active"
  else if s == "1_draft" then some "Draft"
  else Option.none

/-- `map_status(status)`: table lookup with `status.capitalize()` as the
default.  Python evaluates the `dict.get` default eagerly, so a non-string
status raises `AttributeError` before the lookup. -/
def map_status (status : Val) : Except PyErr String := do
  let cap ← pyCapitalizeV status
  match status with
  | .str s => pure ((statusTable s).getD cap)
  | _ => pure cap

/-- The `status_mapping` dict of `map_delivery_status`. -/
def deliveryStatusTable (s : String) : Option String :=
  if s == "draft" then some "Draft"
  else if s == "waiting" then some "Waiting"
  else if s == "confirmed" then some "Confirmed"
  else if s == "assigned" then some "Preparation"
  else if s == "done" then some "Delivered"
  else if s == "cancel" then some "Cancelled"
  else Option.none

/-- `map_delivery_status(status)`: table lookup, capitalized passthrough
for unknown codes. -/
def map_delivery_status (status : Val) : Except PyErr String := do
  let cap ← pyCapitalizeV status
  match status with
  | .str s => pure ((deliveryStatusTable s).getD cap)
  | _ => pure cap

/-- Split a character list on a separator character (keeping empty parts),
like Python `str.split(sep)`. -/
def splitOnChar (sep : Char) : List Char → List (List Char)
  | [] => [[]]
  | c :: rest =>
    let parts := splitOnChar sep rest
    if c == sep then [] :: parts
    else
      match parts with
      | p :: ps => (c :: p) :: ps
      | [] => [[c]]

/-- An all-digit, bounded-width field of `strptime`, as a number. -/
def digitField (minW maxW : Nat) (cs : List Char) : Option Nat :=
  if minW ≤ cs.length && cs.length ≤ maxW && cs.all Char.isDigit then
    some (cs.foldl (fun n c => n * 10 + (c.toNat - '0'.toNat)) 0)
  else Option.none

/-- Whether `y` is a Gregorian leap year. -/
def isLeap (y : Nat) : Bool :=
  (y % 4 == 0 && y % 100 != 0) || y % 400 == 0

/-- Number of days in month `m` of year `y`. -/
def daysInMonth (y m : Nat) : Nat :=
  if m == 2 then (if isLeap y then 29 else 28)
  else if m == 4 || m == 6 || m == 9 || m == 11 then 30
  else 31

/-- `datetime.strptime(s, "%Y-%m-%d")`: year-month-day with calendar
validation; `Option.none` models the `ValueError` on mismatch. -/
def parseYMD (s : String) : Option (Nat × Nat × Nat) :=
  match splitOnChar '-' s.toList with
  | [ys, ms, ds] => do
    let y ← digitField 1 4 ys
    let m ← digitField 1 2 ms
    let d ← digitField 1 2 ds
    if 1 ≤ y && 1 ≤ m && m ≤ 12 && 1 ≤ d && d ≤ daysInMonth y m then
      some (y, m, d)
    else Option.none
  | _ => Option.none

/-- `datetime.strptime(s, "%Y-%m-%d %H:%M:%S")`: the date part with a
validated time-of-day part. -/
def parseDateTime (s : String) : Option (Nat × Nat × Nat) :=
  match splitOnChar ' ' s.toList with
  | [dcs, tcs] => do
    let ymd ← parseYMD (String.mk dcs)
    match splitOnChar ':' tcs with
    | [hs, ms, ss] => do
      let h ← digitField 1 2 hs
      let mi ← digitField 1 2 ms
      let se ← digitField 1 2 ss
      if h ≤ 23 && mi ≤ 59 && se ≤ 59 then some ymd else Option.none
    | _ => Option.none
  | _ => Option.none

/-- Zero-pad a number to two digits (strftime `%m` / `%d`). -/
def pad2 (n : Nat) : String :=
  if n < 10 then "0" ++ toString n else toString n

/-- `dt_obj.strftime("%m/%d/%Y")`. -/
def fmtMDY (y m d : Nat) : String :=
  pad2 m ++ "/" ++ pad2 d ++ "/" ++ toString y

/-- `format_date(date_str)`: falsy input yields `"Not Available"`; a string
is parsed with the datetime format when it contains a space and the date
format otherwise, formatted `"MM/DD/YYYY"` on success; every parse failure —
including a truthy non-string receiver, whose `' ' in date_str` or
`strptime` raises `TypeError` inside the same `try` — yields
`"Invalid Date"`.  The function is total. -/
def format_date (v : Val) : String :=
  if !v.truthy then "Not Available"
  else
    match v with
    | .str s =>
      if s.toList.contains ' ' then
        match parseDateTime s with
        | some (y, m, d) => fmtMDY y m d
        | Option.none => "Invalid Date"
      else
        match parseYMD s with
        | some (y, m, d) => fmtMDY y m d
        | Option.none => "Invalid Date"
    | _ => "Invalid Date"

/-- Python `", ".join(parts)`: every part must be a string, otherwise
`TypeError`. -/
def pyJoinComma (parts : List Val) : Except PyErr String := do
  let strs ← parts.mapM (fun v =>
    match v with
    | Val.str s => Except.ok s
    | _ => Except.error PyErr.typeError)
  pure (String.intercalate ", " strs)

/-- `format_address(customer)`: reads `state_id`/`country_id` with default
`[False, '']` and subscripts `[1]` (so a field *present* with value `False`
raises `TypeError`), then joins the truthy components of
street, street2, city and `"<state> (<country>)"` — the combined segment
only when both labels are truthy. -/
def format_address (customer : Val) : Except PyErr String := do
  let stateRel ← pyGetAttr customer "state_id" (Val.list [Val.bool false, Val.str ""])
  let state ← pyIndex stateRel 1
  let countryRel ← pyGetAttr customer "country_id" (Val.list [Val.bool false, Val.str ""])
  let country ← pyIndex countryRel 1
  let street ← pyGetAttr customer "street" (Val.str "")
  let street2 ← pyGetAttr customer "street2" (Val.str "")
  let city ← pyGetAttr customer "city" (Val.str "")
  let seg := if state.truthy && country.truthy then
      Val.str (pyStr state ++ " (" ++ pyStr country ++ ")")
    else Val.str ""
  pyJoinComma (([street, street2, city, seg]).filter Val.truthy)

/-- `get_many2one_value(field_value, default)`: the label slot of a
relation value that is a list of length > 1, else the default. -/
def get_many2one_value (field_value : Val) (default : Val) : Val :=
  match field_value with
  | .list (_ :: y :: _) => y
  | _ => default

/-- `get_partner_id(partner_field)`: the id slot of a relation value that
is a non-empty list, else `0`. -/
def get_partner_id (partner_field : Val) : Val :=
  match partner_field with
  | .list (x :: _) => x
  | _ => Val.int 0

/-! ## Remote data client (`odoo_reporter_local.py`, lines 28–106) -/

/-- Outcome of the HTTP POST in `_make_request`: a raised transport
exception, a non-2xx status (raised by `raise_for_status`), a body that is
not JSON (raised by `response.json()`), or a parsed JSON payload. -/
inductive HttpOutcome where
  | transportError
  | httpError (code : Nat)
  | badJson
  | ok (payload : Val)

/-- The remote backend as an oracle: model name, method name, positional
args and keyword args determine the HTTP outcome of the call. -/
def Backend :=
  String → String → List Val → List (String × Val) → HttpOutcome

/-- The `try`/`except` body of `_make_request` applied to an HTTP outcome:
any raised step degrades to `[]`; a parsed payload is probed for an
`error` key (logged only) and its `result` key is returned, defaulting to
`[]`.  On a non-dict payload the `result.get` (or the membership test)
raises and the handler returns `[]`. -/
def handleOutcome : HttpOutcome → Val
  | .transportError => .list []
  | .httpError _ => .list []
  | .badJson => .list []
  | .ok payload =>
    match payload with
    | .dict d => pyGet d "result" (.list [])
    | _ => .list []

/-- `_make_request(model, method, args, kwargs)` against a backend oracle.
Total: the enclosing `try`/`except` returns `[]` on every raised step. -/
def _make_request (b : Backend) (model method : String) (args : List Val)
    (kwargs : List (String × Val)) : Val :=
  handleOutcome (b model method args kwargs)

/-- The `fields` list requested by `get_all_subscriptions`. -/
def subscriptionFields : Val :=
  Val.list (["id", "name", "subscription_state", "plan_id", "date_order",
    "partner_id", "order_line", "payment_term_id",
    "amount_untaxed", "amount_total"].map Val.str)

/-- Set `subscription_state` on every record of the fetched result
(`for r in result: r['subscription_state'] = 'n/a'`); iterating a
non-list truthy value either is not iterable or yields strings whose item
assignment raises `TypeError`. -/
def placeholderStates : Val → Except PyErr Val
  | .list items => do
    let items' ← items.mapM (fun r => pySetItem r "subscription_state" (Val.str "n/a"))
    pure (.list items')
  | _ => .error .typeError

/-- `get_all_subscriptions()`: fetch all sale orders (empty domain), then —
when the result is truthy and its first record lacks `subscription_state` —
substitute the placeholder state `'n/a'` on every record.  The final
`len(result)` logging raises on a non-sized value. -/
def get_all_subscriptions (b : Backend) : Except PyErr Val := do
  let result := _make_request b "sale.order" "search_read"
    [Val.list []] [("fields", subscriptionFields)]
  if result.truthy then do
    let first ← pyIndex result 0
    let hasState ← pyContains "subscription_state" first
    if hasState then do
      let _ ← pyLen result
      pure result
    else do
      let result' ← placeholderStates result
      let _ ← pyLen result'
      pure result'
  else do
    let _ ← pyLen result
    pure result

/-- The `fields` list requested by `get_customer_details`. -/
def customerFields : Val :=
  Val.list (["name", "street", "street2", "city", "state_id", "country_id",
    "phone", "email"].map Val.str)

/-- `get_customer_details(partner_id)`: skip the fetch for a falsy id;
otherwise read the partner and take the first record of a truthy result,
`{}` otherwise. -/
def get_customer_details (b : Backend) (partner_id : Val) : Except PyErr Val := do
  if !partner_id.truthy then pure (Val.dict []) else do
    let details := _make_request b "res.partner" "read"
      [Val.list [partner_id]] [("fields", customerFields)]
    if details.truthy then pyIndex details 0 else pure (Val.dict [])

/-- The `fields` list requested by `get_order_lines`. -/
def orderLineFields : Val :=
  Val.list (["product_id", "name", "product_uom_qty", "price_unit",
    "price_subtotal"].map Val.str)

/-- `get_order_lines(line_ids)`: skip the fetch for a falsy id list. -/
def get_order_lines (b : Backend) (line_ids : Val) : Val :=
  if !line_ids.truthy then Val.list []
  else _make_request b "sale.order.line" "read" [line_ids] [("fields", orderLineFields)]

/-- The `fields` list requested by `get_delivery_orders`. -/
def deliveryFields : Val :=
  Val.list (["name", "state", "scheduled_date"].map Val.str)

/-- `get_delivery_orders(origin)`: skip the fetch for a falsy origin;
otherwise search `stock.picking` filtered on the origin match and the
outgoing picking type, ordered by scheduled date descending, limit 1. -/
def get_delivery_orders (b : Backend) (origin : Val) : Val :=
  if !origin.truthy then Val.list []
  else _make_request b "stock.picking" "search_read"
    [Val.list [Val.list [Val.str "origin", Val.str "=", origin],
      Val.list [Val.str "picking_type_id.code", Val.str "=", Val.str "outgoing"]]]
    [("fields", deliveryFields), ("order", Val.str "scheduled_date desc"),
     ("limit", Val.int 1)]

/-! ## Report assembler (`odoo_reporter_local.py`, lines 169–218) -/

/-- `deliveries[0] if deliveries else {}`. -/
def selectDelivery (deliveries : Val) : Except PyErr Val :=
  if deliveries.truthy then pyIndex deliveries 0 else pure (Val.dict [])

/-- The three entries of the embedded `delivery` dict: name with default
`'N/A'`, mapped delivery status of `state` (default `'N/A'`), formatted
`scheduled_date` (default `'N/A'`). -/
def deliveryDisplay (delivery : Val) : Except PyErr (Val × String × String) := do
  let n ← pyGetAttr delivery "name" (Val.str "N/A")
  let st ← pyGetAttr delivery "state" (Val.str "N/A")
  let s ← map_delivery_status st
  let dt ← pyGetAttr delivery "scheduled_date" (Val.str "N/A")
  pure (n, s, format_date dt)

/-- `p.get('name', 'N/A').split('\n')[0]`: defined on strings (a split
always yields at least one part), `AttributeError` otherwise. -/
def pySplitFirstLine : Val → Except PyErr String
  | .str s => .ok (String.mk (s.toList.takeWhile (fun c => c != '\n')))
  | _ => .error .attributeError

/-- One entry of the `products` list of a report. -/
def buildProduct (p : Val) : Except PyErr Val := do
  let rawName ← pyGetAttr p "name" (Val.str "N/A")
  let nameStr ← pySplitFirstLine rawName
  let qty ← pyGetAttr p "product_uom_qty" (Val.int 0)
  let price ← pyGetAttr p "price_unit" (Val.int 0)
  let subtotal ← pyGetAttr p "price_subtotal" (Val.int 0)
  pure (Val.dict [("name", Val.str nameStr), ("quantity", qty),
    ("unit_price", price), ("subtotal", subtotal)])

/-- The normalized components of one report, in the order the report dict
literal computes them. -/
structure ReportParts where
  name : Val
  status : String
  plan : Val
  start_date : String
  custName : Val
  custAddress : String
  custPhone : Val
  delivName : Val
  delivStatus : String
  delivDate : String
  products : List Val
  payment : Val
  untaxed : Val
  total : Val

/-- The report dict literal of `generate_structured_reports` assembled from
its normalized components (`end_date` is always the sentinel). -/
def mkReport (p : ReportParts) : Val :=
  Val.dict [
    ("name", p.name),
    ("status", Val.str p.status),
    ("plan", p.plan),
    ("start_date", Val.str p.start_date),
    ("end_date", Val.str "Not Available"),
    ("customer", Val.dict [("name", p.custName),
      ("address", Val.str p.custAddress), ("phone", p.custPhone)]),
    ("delivery", Val.dict [("name", p.delivName),
      ("status", Val.str p.delivStatus), ("date", Val.str p.delivDate)]),
    ("products", Val.list p.products),
    ("payment_terms", p.payment),
    ("untaxed_amount", p.untaxed),
    ("total_amount", p.total)]

/-- The `try` body of the per-subscription loop: sub-fetches (customer,
deliveries, order lines) followed by the report dict literal, in source
order. -/
def processParts (b : Backend) (sub : Val) : Except PyErr ReportParts := do
  let partnerField ← pyGetAttr sub "partner_id" (Val.bool false)
  let partner_id := get_partner_id partnerField
  let customer ← get_customer_details b partner_id
  let origin ← pyGetAttr sub "name" (Val.str "")
  let deliveries := get_delivery_orders b origin
  let delivery ← selectDelivery deliveries
  let lineIds ← pyGetAttr sub "order_line" (Val.list [])
  let products := get_order_lines b lineIds
  let name ← pyGetAttr sub "name" (Val.str "N/A")
  let rawStatus ← pyGetAttr sub "subscription_state" (Val.str "")
  let status ← map_status rawStatus
  let plan := get_many2one_value (← pyGetAttr sub "plan_id" Val.none) (Val.str "Not Available")
  let start_date := format_date (← pyGetAttr sub "date_order" Val.none)
  let custName ← pyGetAttr customer "name" (Val.str "N/A")
  let custAddress ← format_address customer
  let custPhone ← pyGetAttr customer "phone" (Val.str "N/A")
  let (delivName, delivStatus, delivDate) ← deliveryDisplay delivery
  let productItems ← pyIter products
  let productDicts ← productItems.mapM buildProduct
  let payment := get_many2one_value
    (← pyGetAttr sub "payment_term_id" (Val.list [Val.bool false, Val.str "N/A"]))
    (Val.str "N/A")
  let untaxed ← pyGetAttr sub "amount_untaxed" (Val.int 0)
  let total ← pyGetAttr sub "amount_total" (Val.int 0)
  pure ⟨name, status, plan, start_date, custName, custAddress, custPhone,
    delivName, delivStatus, delivDate, productDicts, payment, untaxed, total⟩

/-- One iteration of the per-subscription loop: the report appended on
success. -/
def processSub (b : Backend) (sub : Val) : Except PyErr Val :=
  (processParts b sub).map mkReport

/-- The per-subscription loop: a record whose processing raises is logged
and skipped; the others are appended in order. -/
def processAll (b : Backend) : List Val → List Val
  | [] => []
  | sub :: rest =>
    match processSub b sub with
    | .ok r => r :: processAll b rest
    | .error _ => processAll b rest

/-- `generate_structured_reports()`: the primary fetch, early return `[]`
on a falsy result, then the per-record loop with failure isolation. -/
def generate_structured_reports (b : Backend) : Except PyErr (List Val) := do
  let subscriptions ← get_all_subscriptions b
  if !subscriptions.truthy then pure [] else do
    let items ← pyIter subscriptions
    pure (processAll b items)

/-! ## Spreadsheet renderer (`excel_exporter.py`) -/

/-- The fixed 18-entry header row of `create_excel_report_base64`. -/
def excelHeaders : List Val :=
  ["Name", "Status", "Plan", "Start Date", "End Date",
   "Customer Name", "Customer Address", "Customer Phone",
   "Delivery Name", "Delivery Status", "Delivery Date",
   "Product", "Quantity", "Unit Price", "Subtotal",
   "Payment Terms", "Untaxed Amount", "Total Amount"].map Val.str

/-- `report.get(outer, {}).get(inner)` — the nested customer/delivery cell
reads. -/
def getSub2 (report : Val) (outer inner : String) : Except PyErr Val := do
  let o ← pyGetAttr report outer (Val.dict [])
  pyGetAttr o inner Val.none

/-- The first eleven cells of a data row (all report-level). -/
def rowHead (report : Val) : Except PyErr (List Val) := do
  let name ← pyGetAttr report "name" Val.none
  let status ← pyGetAttr report "status" Val.none
  let plan ← pyGetAttr report "plan" Val.none
  let startDate ← pyGetAttr report "start_date" Val.none
  let endDate ← pyGetAttr report "end_date" Val.none
  let custName ← getSub2 report "customer" "name"
  let custAddr ← getSub2 report "customer" "address"
  let custPhone ← getSub2 report "customer" "phone"
  let delivName ← getSub2 report "delivery" "name"
  let delivStatus ← getSub2 report "delivery" "status"
  let delivDate ← getSub2 report "delivery" "date"
  pure [name, status, plan, startDate, endDate, custName, custAddr,
    custPhone, delivName, delivStatus, delivDate]

/-- The four product cells of a data row. -/
def productCells (product : Val) : Except PyErr (List Val) := do
  let name ← pyGetAttr product "name" Val.none
  let qty ← pyGetAttr product "quantity" Val.none
  let price ← pyGetAttr product "unit_price" Val.none
  let subtotal ← pyGetAttr product "subtotal" Val.none
  pure [name, qty, price, subtotal]

/-- The last three cells of a data row (all report-level). -/
def rowTail (report : Val) : Except PyErr (List Val) := do
  let payment ← pyGetAttr report "payment_terms" Val.none
  let untaxed ← pyGetAttr report "untaxed_amount" Val.none
  let total ← pyGetAttr report "total_amount" Val.none
  pure [payment, untaxed, total]

/-- One data row for a product of a report, cells in source order. -/
def rowFor (report product : Val) : Except PyErr (List Val) := do
  let h ← rowHead report
  let pc ← productCells product
  let t ← rowTail report
  pure (h ++ pc ++ t)

/-- The inner `for product in report["products"]` loop: one appended row
per product, an exception propagating (the renderer has no handler). -/
def rowsForProducts (report : Val) : List Val → Except PyErr (List (List Val))
  | [] => .ok []
  | p :: rest => do
    let r ← rowFor report p
    let rs ← rowsForProducts report rest
    pure (r :: rs)

/-- The placeholder product cells of the zero-product row. -/
def placeholderCells : List Val :=
  [Val.str "N/A", Val.int 0, Val.int 0, Val.int 0]

/-- The data rows appended for one report: one per product when
`report.get("products")` is truthy, otherwise a single row with the
product placeholders inline. -/
def reportRows (report : Val) : Except PyErr (List (List Val)) := do
  let products ← pyGetAttr report "products" Val.none
  if products.truthy then do
    let items ← pyIter products
    rowsForProducts report items
  else do
    let h ← rowHead report
    let t ← rowTail report
    pure [h ++ placeholderCells ++ t]

/-- The outer `for report in data` loop of the renderer. -/
def appendReports : List Val → Except PyErr (List (List Val))
  | [] => .ok []
  | r :: rest => do
    let rows ← reportRows r
    let more ← appendReports rest
    pure (rows ++ more)

/-- The sheet built by `create_excel_report_base64(data)`: the header row
followed by the data rows.  The binary workbook plus its base64 transport
encoding are modelled by this in-memory sheet value (base64 decoding
inverts the encoding byte for byte). -/
def create_excel_sheet (data : List Val) : Except PyErr (List (List Val)) := do
  let body ← appendReports data
  pure (excelHeaders :: body)

/-! ## Configuration and HTTP surface (`app.py`, `odoo_reporter_local.py`
lines 14–26) -/

/-- The four environment variables read by the reporter constructor
(`Option.none` models an unset variable). -/
structure PyEnv where
  odoo_url : Option String
  odoo_db : Option String
  odoo_uid : Option String
  odoo_password : Option String

/-- Parse the character digits of a Python `int()` literal. -/
def digitsToNat? (cs : List Char) : Option Nat :=
  if cs ≠ [] && cs.all Char.isDigit then
    some (cs.foldl (fun n c => n * 10 + (c.toNat - '0'.toNat)) 0)
  else Option.none

/-- Python `int(s)` on a string: surrounding whitespace stripped, optional
sign, at least one digit, else `ValueError`. -/
def pyParseInt (s : String) : Option Int :=
  let cs := (s.toList.dropWhile (· = ' ')).reverse.dropWhile (· = ' ') |>.reverse
  match cs with
  | '-' :: rest => (digitsToNat? rest).map (fun n => -(n : Int))
  | '+' :: rest => (digitsToNat? rest).map (fun n => (n : Int))
  | _ => (digitsToNat? cs).map (fun n => (n : Int))

/-- Python `int(os.environ.get("ODOO_UID"))`: `TypeError` on an unset
variable (`int(None)`), `ValueError` on a non-numeric string. -/
def pyIntOfEnv : Option String → Except PyErr Int
  | Option.none => .error .typeError
  | some s =>
    match pyParseInt s with
    | some n => .ok n
    | Option.none => .error .valueError

/-- Truthiness of an optional environment string. -/
def optTruthy : Option String → Bool
  | Option.none => false
  | some s => s != ""

/-- The configuration held by a successfully constructed reporter. -/
structure ReporterCfg where
  url : Option String
  db : Option String
  uid : Int
  password : Option String

/-- `OdooSubscriptionReporter.__init__`: read the four variables (the uid
is converted with `int(...)` before any check runs), then raise
`ValueError` unless `all([url, db, uid, password])`. -/
def reporterInit (e : PyEnv) : Except PyErr ReporterCfg := do
  let uid ← pyIntOfEnv e.odoo_uid
  if optTruthy e.odoo_url && optTruthy e.odoo_db && uid != 0 &&
      optTruthy e.odoo_password then
    pure ⟨e.odoo_url, e.odoo_db, uid, e.odoo_password⟩
  else .error .valueError

/-- The `GET /api/reports` handler of `app.py`: construct the reporter and
generate; `ValueError` is answered 400, any other exception 500, success
200 with the report list. -/
def api_reports (e : PyEnv) (b : Backend) : Nat × Val :=
  match (do let _ ← reporterInit e; generate_structured_reports b :
      Except PyErr (List Val)) with
  | .ok rs => (200, Val.list rs)
  | .error .valueError => (400, Val.dict [("error", Val.str "ValueError")])
  | .error _ => (500, Val.dict [("error", Val.str "An unexpected error occurred")])

/-! ## Concrete records and backends used to instantiate the theorems -/

/-- A sale order whose partner has a customer record. -/
def c1sub : Val :=
  Val.dict [("name", Val.str "S0042"), ("subscription_state", Val.str "2_open"),
    ("partner_id", Val.list [Val.int 1, Val.str "Alice"]),
    ("order_line", Val.list []), ("date_order", Val.str "2024-03-15")]

/-- A customer record whose `phone` field is present with value `false`
(Odoo's encoding of an unset scalar field). -/
def c1cust : Val :=
  Val.dict [("name", Val.str "Alice"), ("street", Val.str "1 Main St"),
    ("street2", Val.bool false), ("city", Val.str "Springfield"),
    ("state_id", Val.list [Val.int 1, Val.str "IL"]),
    ("country_id", Val.list [Val.int 2, Val.str "US"]),
    ("phone", Val.bool false), ("email", Val.bool false)]

/-- A backend serving `c1sub` with customer `c1cust` and no shipments. -/
def cb1 : Backend := fun model _ _ _ =>
  if model == "sale.order" then .ok (Val.dict [("result", Val.list [c1sub])])
  else if model == "res.partner" then .ok (Val.dict [("result", Val.list [c1cust])])
  else .ok (Val.dict [("result", Val.list [])])

/-- The single report emitted for `cb1`. -/
def c1report : Val :=
  mkReport ⟨Val.str "S0042", "Active", Val.str "Not Available", "03/15/2024",
    Val.str "Alice", "1 Main St, Springfield, IL (US)", Val.bool false,
    Val.str "N/A", "N/a", "Invalid Date", [], Val.str "N/A", Val.int 0, Val.int 0⟩

/-- First order of the two-order batch: processes cleanly. -/
def c2sub1 : Val :=
  Val.dict [("name", Val.str "S001"), ("subscription_state", Val.str "2_open")]

/-- Second order of the two-order batch: its `subscription_state` is the
boolean `false`, so `map_status` raises `AttributeError` mid-record. -/
def c2sub2 : Val :=
  Val.dict [("subscription_state", Val.bool false)]

/-- A backend whose primary fetch returns the two orders above. -/
def cb2 : Backend := fun model _ _ _ =>
  if model == "sale.order" then .ok (Val.dict [("result", Val.list [c2sub1, c2sub2])])
  else .ok (Val.dict [("result", Val.list [])])

/-- The report emitted for `c2sub1`. -/
def c2report1 : Val :=
  mkReport ⟨Val.str "S001", "Active", Val.str "Not Available", "Not Available",
    Val.str "N/A", "", Val.str "N/A", Val.str "N/A", "N/a", "Invalid Date",
    [], Val.str "N/A", Val.int 0, Val.int 0⟩

/-- A sale order whose delivery fetch will match no shipment. -/
def c6sub : Val :=
  Val.dict [("name", Val.str "SO7"), ("subscription_state", Val.str "1_draft")]

/-- A backend with one order and no shipments at all. -/
def cb6 : Backend := fun model _ _ _ =>
  if model == "sale.order" then .ok (Val.dict [("result", Val.list [c6sub])])
  else .ok (Val.dict [("result", Val.list [])])

/-- The single report emitted for `cb6`. -/
def c6report : Val :=
  mkReport ⟨Val.str "SO7", "Draft", Val.str "Not Available", "Not Available",
    Val.str "N/A", "", Val.str "N/A", Val.str "N/A", "N/a", "Invalid Date",
    [], Val.str "N/A", Val.int 0, Val.int 0⟩

/-- A product line of the two-line renderer input. -/
def c7p1 : Val :=
  Val.dict [("name", Val.str "Widget"), ("quantity", Val.int 2),
    ("unit_price", Val.int 10), ("subtotal", Val.int 20)]

/-- The second product line of the two-line renderer input. -/
def c7p2 : Val :=
  Val.dict [("name", Val.str "Gadget"), ("quantity", Val.int 1),
    ("unit_price", Val.int 5), ("subtotal", Val.int 5)]

/-- A normalized report with two product lines. -/
def c7report : Val :=
  mkReport ⟨Val.str "S9", "Active", Val.str "Gold", "01/02/2024",
    Val.str "Bob", "1 Elm St", Val.str "555-0100", Val.str "WH/OUT/1",
    "Delivered", "01/03/2024", [c7p1, c7p2], Val.str "Immediate",
    Val.int 25, Val.int 25⟩

/-- The report-level head cells of every data row for `c7report`. -/
def c7rowH : List Val :=
  [Val.str "S9", Val.str "Active", Val.str "Gold", Val.str "01/02/2024",
   Val.str "Not Available", Val.str "Bob", Val.str "1 Elm St",
   Val.str "555-0100", Val.str "WH/OUT/1", Val.str "Delivered",
   Val.str "01/03/2024"]

/-- The report-level tail cells of every data row for `c7report`. -/
def c7rowT : List Val :=
  [Val.str "Immediate", Val.int 25, Val.int 25]

/-- The two data rows the renderer emits for `c7report`. -/
def c7rows : List (List Val) :=
  [c7rowH ++ [Val.str "Widget", Val.int 2, Val.int 10, Val.int 20] ++ c7rowT,
   c7rowH ++ [Val.str "Gadget", Val.int 1, Val.int 5, Val.int 5] ++ c7rowT]

/-- Environment with URL, database and password set but `ODOO_UID` unset. -/
def c9envMissingUid : PyEnv :=
  ⟨some "https://odoo.example.com/jsonrpc", some "proddb", Option.none, some "secret"⟩

/-- Environment with `ODOO_URL` unset but a numeric uid. -/
def c9envMissingUrl : PyEnv :=
  ⟨Option.none, some "proddb", some "7", some "secret"⟩

/-- A backend that never answers (irrelevant: construction fails first). -/
def emptyBackend : Backend := fun _ _ _ _ => HttpOutcome.transportError

/-- Shape invariant of an emitted report: it is the report dict literal for
some normalized components — so all eleven top-level fields and the three
customer and delivery subfields are present — and the normalized fields
(status, start date, the constant end date, address, delivery status and
date) are strings.  Passthrough fields carry the raw source value. -/
def reportWellShaped (r : Val) : Prop :=
  (∃ p : ReportParts, r = mkReport p) ∧
  dictKeys r = some ["name", "status", "plan", "start_date", "end_date",
    "customer", "delivery", "products", "payment_terms", "untaxed_amount",
    "total_amount"] ∧
  dictKeys ((getKey r "customer").getD Val.none) = some ["name", "address", "phone"] ∧
  dictKeys ((getKey r "delivery").getD Val.none) = some ["name", "status", "date"] ∧
  (∃ s, getPath r ["status"] = some (Val.str s)) ∧
  (∃ s, getPath r ["start_date"] = some (Val.str s)) ∧
  getPath r ["end_date"] = some (Val.str "Not Available") ∧
  (∃ s, getPath r ["customer", "address"] = some (Val.str s)) ∧
  (∃ s, getPath r ["delivery", "status"] = some (Val.str s)) ∧
  (∃ s, getPath r ["delivery", "date"] = some (Val.str s))

/-! ## Helper lemmas -/

theorem exceptBind_ok {α β : Type} {x : Except PyErr α} {f : α → Except PyErr β} {r : β}
    (h : (x >>= f) = .ok r) : ∃ a, x = .ok a ∧ f a = .ok r := by
  cases x with
  | error e => exact absurd h (by intro hc; cases hc)
  | ok a => exact ⟨a, rfl, h⟩

theorem exceptMap_ok {α β : Type} {x : Except PyErr α} {f : α → β} {r : β}
    (h : x.map f = .ok r) : ∃ a, x = .ok a ∧ r = f a := by
  cases x with
  | error e => exact absurd h (by intro hc; cases hc)
  | ok a => exact ⟨a, rfl, by cases h; rfl⟩

theorem pyBind_ok {α β : Type} (a : α) (f : α → Except PyErr β) :
    (Except.ok a >>= f) = f a := rfl

theorem processSub_ok {b : Backend} {sub r : Val}
    (h : processSub b sub = .ok r) : ∃ p, r = mkReport p := by
  obtain ⟨p, -, hr⟩ := exceptMap_ok h
  exact ⟨p, hr⟩

theorem processAll_mem {b : Backend} {items : List Val} {r : Val}
    (h : r ∈ processAll b items) : ∃ sub, processSub b sub = .ok r := by
  induction items with
  | nil => cases h
  | cons s rest ih =>
    unfold processAll at h
    cases hs : processSub b s with
    | ok v =>
      rw [hs] at h
      rcases List.mem_cons.mp h with h' | h'
      · exact ⟨s, by rw [hs, h']⟩
      · exact ih h'
    | error e => rw [hs] at h; exact ih h

theorem generate_mem {b : Backend} {rs : List Val} {r : Val}
    (h1 : generate_structured_reports b = .ok rs) (h2 : r ∈ rs) :
    ∃ sub, processSub b sub = .ok r := by
  unfold generate_structured_reports at h1
  obtain ⟨subs, -, h1⟩ := exceptBind_ok h1
  by_cases ht : subs.truthy
  · simp only [ht, Bool.not_true, Bool.false_eq_true, if_false] at h1
    obtain ⟨items, -, h1⟩ := exceptBind_ok h1
    cases h1
    exact processAll_mem h2
  · simp only [Bool.not_eq_true] at ht
    simp only [ht, Bool.not_false, if_true] at h1
    cases h1
    cases h2

theorem mkReport_wellShaped (p : ReportParts) : reportWellShaped (mkReport p) :=
  ⟨⟨p, rfl⟩, rfl, rfl, rfl, ⟨p.status, rfl⟩, ⟨p.start_date, rfl⟩, rfl,
   ⟨p.custAddress, rfl⟩, ⟨p.delivStatus, rfl⟩, ⟨p.delivDate, rfl⟩⟩

theorem pyGet_absent {d : List (String × Val)} {k : String} {default : Val}
    (h : ∀ kv ∈ d, kv.1 ≠ k) : pyGet d k default = default := by
  unfold pyGet
  have : d.find? (fun kv => kv.1 == k) = Option.none :=
    List.find?_eq_none.mpr (fun kv hkv => by simpa using h kv hkv)
  rw [this]

theorem rowFor_ok {report p : Val} {row : List Val} (h : rowFor report p = .ok row) :
    ∃ hd pc tl, rowHead report = .ok hd ∧ productCells p = .ok pc ∧
      rowTail report = .ok tl ∧ row = hd ++ pc ++ tl := by
  unfold rowFor at h
  obtain ⟨hd, hhd, h⟩ := exceptBind_ok h
  obtain ⟨pc, hpc, h⟩ := exceptBind_ok h
  obtain ⟨tl, htl, h⟩ := exceptBind_ok h
  cases h
  exact ⟨hd, pc, tl, hhd, hpc, htl, rfl⟩

theorem rowsForProducts_spec {report : Val} {ps : List Val} {rows : List (List Val)}
    (h : rowsForProducts report ps = .ok rows) :
    rows.length = ps.length ∧
    ∀ row ∈ rows, ∃ hd pc tl, rowHead report = .ok hd ∧ rowTail report = .ok tl ∧
      row = hd ++ pc ++ tl := by
  induction ps generalizing rows with
  | nil =>
    unfold rowsForProducts at h
    cases h
    exact ⟨rfl, fun row hr => absurd hr (List.not_mem_nil row)⟩
  | cons p rest ih =>
    unfold rowsForProducts at h
    obtain ⟨row, hrow, h⟩ := exceptBind_ok h
    obtain ⟨rs', hrs', h⟩ := exceptBind_ok h
    cases h
    obtain ⟨hlen, hall⟩ := ih hrs'
    refine ⟨by simp [hlen], ?_⟩
    intro r hr
    rcases List.mem_cons.mp hr with rfl | hr
    · obtain ⟨hd, pc, tl, hhd, hpc, htl, hre⟩ := rowFor_ok hrow
      exact ⟨hd, pc, tl, hhd, htl, hre⟩
    · exact hall r hr

/-! ## Claim theorems -/

/-- C1 (counterexample): the claim "no field of the Report is ever null,
absent, or a raw boolean false" fails.  Backend `cb1` returns one order
whose customer record carries `phone: false`; `customer.get('phone', 'N/A')`
passes the present-but-false value through, so the emitted report's
customer phone is the raw boolean `false`. -/
theorem claim_C1_counterexample :
    generate_structured_reports cb1 = .ok [c1report] ∧
    getPath c1report ["customer", "phone"] = some (Val.bool false) :=
  ⟨rfl, rfl⟩

/-- C1 (amended): every emitted report is the fixed report dict literal —
all eleven top-level fields and the customer/delivery subfields are present
(never null or missing), and the normalized fields (status, start date,
the constant end date `"Not Available"`, address, delivery status/date) are
strings.  Sentinel substitution applies only to *absent* source keys:
fields present with a raw boolean `false` (such as the customer phone) are
passed through unchanged. -/
theorem claim_C1_amended (b : Backend) (rs : List Val) (r : Val)
    (h1 : generate_structured_reports b = .ok rs) (h2 : r ∈ rs) :
    reportWellShaped r := by
  obtain ⟨sub, hsub⟩ := generate_mem h1 h2
  obtain ⟨p, rfl⟩ := processSub_ok hsub
  exact mkReport_wellShaped p

/-- C1 witness: the amended invariant at the concrete backend `cb1`. -/
theorem claim_C1_witness : reportWellShaped c1report :=
  claim_C1_amended cb1 [c1report] c1report rfl (List.mem_singleton.mpr rfl)

/-- C2: per-record failure isolation.  If the primary fetch yields two
orders, the first processes to a report and any step of the second raises,
then `generate_structured_reports` returns exactly the first report and
propagates no exception. -/
theorem claim_C2 (b : Backend) (s1 s2 r1 : Val) (e : PyErr)
    (h0 : get_all_subscriptions b = .ok (Val.list [s1, s2]))
    (h1 : processSub b s1 = .ok r1)
    (h2 : processSub b s2 = .error e) :
    generate_structured_reports b = .ok [r1] := by
  unfold generate_structured_reports
  rw [h0, pyBind_ok]
  simp only [Val.truthy, List.isEmpty, Bool.not_true, Bool.false_eq_true, if_false]
  rw [show pyIter (Val.list [s1, s2]) = Except.ok [s1, s2] from rfl, pyBind_ok]
  simp [processAll, h1, h2]
  rfl

/-- C2 witness: backend `cb2` returns two orders; the second order's
`subscription_state` is the boolean `false`, so `map_status` raises
`AttributeError` mid-record; the batch still yields the first report. -/
theorem claim_C2_witness : generate_structured_reports cb2 = .ok [c2report1] :=
  claim_C2 cb2 c2sub1 c2sub2 c2report1 PyErr.attributeError rfl rfl rfl

/-- C3 (counterexample): the claim "a response payload containing an error
field yields the empty list" fails: for a payload carrying both an `error`
field and a `result` field, `_make_request` returns the `result` value, not
the empty list. -/
theorem claim_C3_counterexample :
    handleOutcome (HttpOutcome.ok (Val.dict
      [("error", Val.str "boom"), ("result", Val.list [Val.int 1])]))
      = Val.list [Val.int 1] ∧
    Val.list [Val.int 1] ≠ Val.list [] := by
  refine ⟨rfl, ?_⟩
  intro h
  injection h with h'
  cases h'

/-- C3 (amended): `_make_request` is total (the `try`/`except` catches every
raised step, so the call never raises past its boundary) and degrades to the
empty list on every transport error, HTTP error status, malformed JSON body,
and non-dict payload; for a dict payload — in particular a standard error
response, which has an `error` field and no `result` field — it returns the
payload's `result` value, defaulting to the empty list when that key is
absent. -/
theorem claim_C3_amended :
    (handleOutcome HttpOutcome.transportError = Val.list [] ∧
     (∀ code, handleOutcome (HttpOutcome.httpError code) = Val.list []) ∧
     handleOutcome HttpOutcome.badJson = Val.list []) ∧
    (∀ d : List (String × Val), (∀ kv ∈ d, kv.1 ≠ "result") →
      handleOutcome (HttpOutcome.ok (Val.dict d)) = Val.list []) ∧
    (∀ p : Val, dictKeys p = Option.none →
      handleOutcome (HttpOutcome.ok p) = Val.list []) ∧
    (∀ (b : Backend) (model method : String) (args : List Val)
        (kwargs : List (String × Val)),
      _make_request b model method args kwargs
        = handleOutcome (b model method args kwargs)) := by
  refine ⟨⟨rfl, fun code => rfl, rfl⟩, ?_, ?_, fun b model method args kwargs => rfl⟩
  · intro d hd
    show pyGet d "result" (Val.list []) = Val.list []
    exact pyGet_absent hd
  · intro p hp
    cases p <;> first | rfl | cases hp

/-- C3 witness: a standard JSON-RPC error response — an `error` field and
no `result` field — degrades to the empty list. -/
theorem claim_C3_witness :
    handleOutcome (HttpOutcome.ok (Val.dict [("error", Val.str "x")])) = Val.list [] :=
  claim_C3_amended.2.1 [("error", Val.str "x")] (by decide)

/-- C4 (code bug): `format_address` is not total over the documented field
shapes.  On a customer whose `state_id` is *present* with the relation-unset
value `false`, `customer.get('state_id', [False, ''])[1]` subscripts the
boolean and raises `TypeError` instead of dropping the component; on
well-shaped input the comma-join with the both-or-neither state/country
rule does hold. -/
theorem claim_C4_bug :
    format_address (Val.dict [("state_id", Val.bool false)])
      = .error PyErr.typeError ∧
    format_address (Val.dict [("street", Val.str "1 Main St"),
      ("city", Val.str "Springfield"),
      ("state_id", Val.list [Val.int 1, Val.str "IL"]),
      ("country_id", Val.list [Val.int 2, Val.str "US"])])
      = .ok "1 Main St, Springfield, IL (US)" ∧
    format_address (Val.dict [("street", Val.str "1 Main St"),
      ("state_id", Val.list [Val.int 1, Val.str "IL"])])
      = .ok "1 Main St" :=
  ⟨rfl, rfl, rfl⟩

/-- C5: `map_status` implements the fixed five-entry lookup table, returns
the raw code capitalized (Python `str.capitalize`) for every code outside
the table, and maps the empty status to the empty string (capitalizing
`""`) without raising. -/
theorem claim_C5 :
    map_status (Val.str "4_close") = .ok "Closed" ∧
    map_status (Val.str "6_churn") = .ok "Churned" ∧
    map_status (Val.str "3_pending") = .ok "Pending" ∧
    map_status (Val.str "2_open") = .ok "Active" ∧
    map_status (Val.str "1_draft") = .ok "Draft" ∧
    map_status (Val.str "") = .ok "" ∧
    ∀ s : String, s ∉ ["4_close", "6_churn", "3_pending", "2_open", "1_draft"] →
      map_status (Val.str s) = .ok (pyCapitalize s) := by
  refine ⟨rfl, rfl, rfl, rfl, rfl, rfl, ?_⟩
  intro s hs
  simp only [List.mem_cons, List.not_mem_nil, or_false, not_or] at hs
  obtain ⟨n1, n2, n3, n4, n5⟩ := hs
  simp [map_status, pyCapitalizeV, pyBind_ok, statusTable, n1, n2, n3, n4, n5]

/-- C5 witness: the capitalized passthrough at the spec's example code. -/
theorem claim_C5_witness : map_status (Val.str "unknown_code") = .ok "Unknown_code" :=
  (claim_C5.2.2.2.2.2.2 "unknown_code" (by decide)).trans rfl

/-- C6 (counterexample): the claim "with no matching shipment all three
embedded delivery fields are sentinel values" fails.  Backend `cb6` has no
shipments; the emitted delivery name is the sentinel `"N/A"`, but the
status is `"N/a"` (the sentinel fed through `str.capitalize`) and the date
is `"Invalid Date"` (the sentinel fed through `format_date`) — neither of
which is a sentinel string. -/
theorem claim_C6_counterexample :
    generate_structured_reports cb6 = .ok [c6report] ∧
    getPath c6report ["delivery", "name"] = some (Val.str "N/A") ∧
    getPath c6report ["delivery", "status"] = some (Val.str "N/a") ∧
    getPath c6report ["delivery", "date"] = some (Val.str "Invalid Date") ∧
    "Invalid Date" ≠ "Not Available" ∧ "Invalid Date" ≠ "N/A" ∧
    "N/a" ≠ "Not Available" ∧ "N/a" ≠ "N/A" :=
  ⟨rfl, rfl, rfl, rfl, by decide, by decide, by decide, by decide⟩

/-- C6 (amended): when the delivery fetch returns no matching shipment the
embedded delivery fields are name `"N/A"`, status `"N/a"` and date
`"Invalid Date"`; otherwise they are derived from the first returned
shipment — the single most recently scheduled match, since the fetch orders
by scheduled date descending with limit 1. -/
theorem claim_C6_amended :
    (selectDelivery (Val.list []) = .ok (Val.dict []) ∧
     deliveryDisplay (Val.dict []) = .ok (Val.str "N/A", "N/a", "Invalid Date")) ∧
    (∀ (x : Val) (rest : List Val),
      selectDelivery (Val.list (x :: rest)) = .ok x) :=
  ⟨⟨rfl, rfl⟩, fun _ _ => rfl⟩

/-- C7: renderer row emission.  For a report whose `products` field is a
list of N product lines: when N = 0, exactly one data row is emitted whose
product cells are the placeholders `"N/A"`, 0, 0, 0 between the report-level
head and tail cells; when N ≥ 1, exactly N data rows are emitted, every row
consisting of the same report-level head cells, that row's product cells,
and the same report-level tail cells. -/
theorem claim_C7 (report : Val) (ps : List Val) (rows : List (List Val))
    (hp : pyGetAttr report "products" Val.none = .ok (Val.list ps))
    (hr : reportRows report = .ok rows) :
    (ps = [] → ∃ hd tl, rowHead report = .ok hd ∧ rowTail report = .ok tl ∧
      rows = [hd ++ placeholderCells ++ tl]) ∧
    (ps ≠ [] → rows.length = ps.length ∧
      ∃ hd tl, rowHead report = .ok hd ∧ rowTail report = .ok tl ∧
        ∀ row ∈ rows, ∃ pc, row = hd ++ pc ++ tl) := by
  unfold reportRows at hr
  obtain ⟨pv, hpv, hr⟩ := exceptBind_ok hr
  rw [hp] at hpv
  cases hpv
  cases ps with
  | nil =>
    simp only [Val.truthy, List.isEmpty, Bool.not_false, Bool.false_eq_true,
      if_false, if_true] at hr
    obtain ⟨hd, hhd, hr⟩ := exceptBind_ok hr
    obtain ⟨tl, htl, hr⟩ := exceptBind_ok hr
    cases hr
    refine ⟨fun _ => ⟨hd, tl, hhd, htl, rfl⟩, fun hne => absurd rfl hne⟩
  | cons p rest =>
    simp only [Val.truthy, List.isEmpty, Bool.not_true, Bool.false_eq_true,
      if_false, if_true] at hr
    rw [show pyIter (Val.list (p :: rest)) = Except.ok (p :: rest) from rfl,
      pyBind_ok] at hr
    obtain ⟨hlen, hall⟩ := rowsForProducts_spec hr
    constructor
    · intro hnil
      exact absurd hnil (List.cons_ne_nil p rest)
    · intro _
      refine ⟨hlen, ?_⟩
      have hne : rows ≠ [] := by
        intro h0
        rw [h0] at hlen
        cases hlen
      obtain ⟨row0, rows', rfl⟩ := List.exists_cons_of_ne_nil hne
      obtain ⟨hd, pc0, tl, hhd, htl, hrow0⟩ := hall row0 (List.mem_cons_self row0 rows')
      refine ⟨hd, tl, hhd, htl, ?_⟩
      intro row hrow
      obtain ⟨hd', pc, tl', hhd', htl', hrowe⟩ := hall row hrow
      rw [hhd] at hhd'
      rw [htl] at htl'
      cases hhd'
      cases htl'
      exact ⟨pc, hrowe⟩

/-- C7 witness: the two-product report `c7report` renders to exactly two
rows. -/
theorem claim_C7_witness : c7rows.length = [c7p1, c7p2].length :=
  ((claim_C7 c7report [c7p1, c7p2] c7rows rfl rfl).2 (by simp)).1

/-- C8: the sheet built by the renderer always starts with the fixed
18-entry header row, in order.  The binary workbook and its base64
transport encoding are modelled by the in-memory sheet value (base64
decoding inverts the encoding byte for byte, and the workbook stores
exactly the appended rows). -/
theorem claim_C8 (data : List Val) (rows : List (List Val))
    (h : create_excel_sheet data = .ok rows) :
    rows.head? = some [Val.str "Name", Val.str "Status", Val.str "Plan",
      Val.str "Start Date", Val.str "End Date", Val.str "Customer Name",
      Val.str "Customer Address", Val.str "Customer Phone",
      Val.str "Delivery Name", Val.str "Delivery Status",
      Val.str "Delivery Date", Val.str "Product", Val.str "Quantity",
      Val.str "Unit Price", Val.str "Subtotal", Val.str "Payment Terms",
      Val.str "Untaxed Amount", Val.str "Total Amount"] := by
  unfold create_excel_sheet at h
  obtain ⟨body, -, h⟩ := exceptBind_ok h
  cases h
  rfl

/-- C8 witness: the header row of the sheet rendered from an empty report
list. -/
theorem claim_C8_witness :
    ([excelHeaders] : List (List Val)).head? = some [Val.str "Name",
      Val.str "Status", Val.str "Plan", Val.str "Start Date",
      Val.str "End Date", Val.str "Customer Name", Val.str "Customer Address",
      Val.str "Customer Phone", Val.str "Delivery Name",
      Val.str "Delivery Status", Val.str "Delivery Date", Val.str "Product",
      Val.str "Quantity", Val.str "Unit Price", Val.str "Subtotal",
      Val.str "Payment Terms", Val.str "Untaxed Amount",
      Val.str "Total Amount"] :=
  claim_C8 [] [excelHeaders] rfl

/-- C9 (code bug): construction does fail fast, but not always with a
`ValueError`/400.  With `ODOO_URL` unset the `all(...)` check raises
`ValueError` and the route answers 400; with `ODOO_UID` unset, however,
`int(os.environ.get("ODOO_UID"))` runs *before* the check and raises
`TypeError` (`int(None)`), which the route's generic handler turns into a
500-class response, contradicting the claimed 400-class surface. -/
theorem claim_C9_bug :
    reporterInit c9envMissingUid = .error PyErr.typeError ∧
    (api_reports c9envMissingUid emptyBackend).1 = 500 ∧
    reporterInit c9envMissingUrl = .error PyErr.valueError ∧
    (api_reports c9envMissingUrl emptyBackend).1 = 400 :=
  ⟨rfl, rfl, rfl, rfl⟩

/-- C10: the two relation normalizers disagree on one-element lists —
`get_partner_id` treats `[id]` as set and returns the id while
`get_many2one_value` requires length > 1 and returns the default; on `false`
and every other non-list value they return `0` and the default respectively;
and on any list of length at least two `get_many2one_value` returns the
element at index 1 whatever its type. -/
theorem claim_C10 :
    (∀ x : Val, get_partner_id (Val.list [x]) = x) ∧
    (∀ (x d : Val), get_many2one_value (Val.list [x]) d = d) ∧
    (∀ v : Val, v.isList = false → ∀ d : Val,
      get_partner_id v = Val.int 0 ∧ get_many2one_value v d = d) ∧
    (∀ (x y : Val) (rest : List Val) (d : Val),
      get_many2one_value (Val.list (x :: y :: rest)) d = y) := by
  refine ⟨fun _ => rfl, fun _ _ => rfl, ?_, fun _ _ _ _ => rfl⟩
  intro v hv d
  cases v with
  | list xs => cases hv
  | none => exact ⟨rfl, rfl⟩
  | bool b => exact ⟨rfl, rfl⟩
  | int n => exact ⟨rfl, rfl⟩
  | str s => exact ⟨rfl, rfl⟩
  | dict ents => exact ⟨rfl, rfl⟩

/-- C10 witness: both normalizers at the relation-unset value `false`. -/
theorem claim_C10_witness :
    get_partner_id (Val.bool false) = Val.int 0 ∧
    get_many2one_value (Val.bool false) (Val.str "Not Available")
      = Val.str "Not Available" :=
  claim_C10.2.2.1 (Val.bool false) rfl (Val.str "Not Available")
